import Mathlib

/-!
# Verification of the dual-backend CRUD tutorial

Shallow embedding of the repository's two store adapters
(`SupabaseService` in `src/lib/supabase.ts`, `MongoDBService` and
`connectToMongoDB` in the MongoDB library module), the four route
handlers (GET/POST for each backend's `users` route, DELETE for each
backend's `users/[id]` route), and the page component's client-side
`fetchUsers` / `createUser` / `deleteUser` handlers.

The hosted databases are embedded as explicit states: the relational
store follows the repository's DDL script (`users` table with
`email UNIQUE` and `CHECK (age > 0 AND age < 150)`, identity primary
key, `created_at`/`updated_at` defaults), the document store is a list
of documents with adapter-assigned object-identifier strings.
JavaScript truthiness of request-body fields is embedded explicitly,
since the route handlers guard on `!name || !email || !age`.
-/

namespace DbTutorial

/-- A JSON scalar as it can arrive in a request body's `age` field:
either a JSON string or a JSON number (integral; the client always
sends `Number.parseInt(newUser.age)`, a number). -/
inductive JVal where
  | jstr : String → JVal
  | jnum : Int → JVal
deriving DecidableEq, Repr

/-- JavaScript truthiness test on a JSON scalar: the empty string and
the number `0` are falsy, everything else is truthy. -/
def JVal.falsy : JVal → Bool
  | .jstr s => s = ""
  | .jnum n => n = 0

/-- Truthiness of an optional body field: an absent field (`undefined`)
is falsy, a present field is falsy iff its value is. -/
def jfalsy : Option JVal → Bool
  | none => true
  | some v => v.falsy

/-- Truthiness of an optional string-valued body field (`name`,
`email`): absent or empty is falsy. -/
def sfalsy : Option String → Bool
  | none => true
  | some s => s = ""

/-- Value of a list of decimal digit characters. -/
def natOfDigits (cs : List Char) : Nat :=
  cs.foldl (fun acc c => acc * 10 + (c.toNat - 48)) 0

/-- `Number.parseInt` as applied by the POST routes to the `age` body
field. On a JSON number it returns its integral value; on a string it
reads an optional sign and the leading run of decimal digits. The NaN
outcome of a digit-free string is embedded as `0`; no claim depends on
that corner. -/
def parseIntJS : JVal → Int
  | .jnum n => n
  | .jstr s =>
    match s.data with
    | '-' :: cs => -(natOfDigits (cs.takeWhile Char.isDigit) : Int)
    | cs => (natOfDigits (cs.takeWhile Char.isDigit) : Int)

/-- The request body of a create request as destructured by the POST
routes: `const { name, email, age } = body`. Each field may be absent. -/
structure ReqBody where
  name : Option String
  email : Option String
  age : Option JVal
deriving DecidableEq, Repr

/-! ## Relational store (Supabase/PostgreSQL) -/

/-- A row of the `users` table, per the DDL script: identity key,
`name`, `email`, `age`, and the two timestamp columns (timestamps
embedded as natural numbers). -/
structure SqlRow where
  id : Nat
  name : String
  email : String
  age : Int
  created_at : Nat
  updated_at : Nat
deriving DecidableEq, Repr

/-- State of the relational `users` table: its rows plus the next
value of the identity sequence. -/
structure SqlState where
  rows : List SqlRow
  nextId : Nat
deriving DecidableEq, Repr

/-- Errors surfaced by the relational client: a schema-constraint
violation (unique/check), or any other query failure (e.g. a key that
does not parse as the `BIGINT` column type). Both are thrown by the
service methods' `if (error) throw error`. -/
inductive SqlError where
  | constraintError : String → SqlError
  | queryError : String → SqlError
deriving DecidableEq, Repr

/-- The record the relational POST route hands to
`supabaseService.insert`: `{ name, email, age: Number.parseInt(age) }`. -/
structure SqlInsertInput where
  name : String
  email : String
  age : Int
deriving DecidableEq, Repr

/-- The DDL's range check on `age`: `CHECK (age > 0 AND age < 150)`. -/
def sqlAgeCheck (age : Int) : Bool := 0 < age && age < 150

/-- The DDL's `email TEXT NOT NULL UNIQUE` constraint: no stored row
may already carry the email. -/
def sqlEmailFree (s : SqlState) (email : String) : Bool :=
  s.rows.all (fun r => r.email ≠ email)

/-- Descending order on rows by creation timestamp, the comparison the
relational list query requests via
`.order("created_at", { ascending: false })`. -/
def sqlDescRel (a b : SqlRow) : Prop := b.created_at ≤ a.created_at

instance : DecidableRel sqlDescRel := fun a b => Nat.decLe b.created_at a.created_at

/-- `SupabaseService.getAll(tableName)`: `SELECT *` ordered by
`created_at` descending. The hosted database's ORDER BY is embedded as
a sort of the current rows by that comparison. -/
def SupabaseService.getAll (s : SqlState) : List SqlRow :=
  s.rows.insertionSort sqlDescRel

/-- `SupabaseService.insert(tableName, data)` against the DDL's
schema: the database checks the `age` range and `email` uniqueness,
assigns the identity key and the `created_at`/`updated_at` defaults
(`NOW()`, passed in as `now`), and `.select()` returns the list of
inserted rows. On a violated constraint the client yields an error and
the service throws it. -/
def SupabaseService.insert (s : SqlState) (now : Nat) (input : SqlInsertInput) :
    Except SqlError (List SqlRow × SqlState) :=
  if ¬ sqlAgeCheck input.age then
    .error (.constraintError "users_age_check")
  else if ¬ sqlEmailFree s input.email then
    .error (.constraintError "users_email_key")
  else
    let row : SqlRow :=
      { id := s.nextId, name := input.name, email := input.email
        age := input.age, created_at := now, updated_at := now }
    .ok ([row], { rows := s.rows ++ [row], nextId := s.nextId + 1 })

/-- Whether a value fits the signed 64-bit `BIGINT` column type:
`-2^63 ≤ n ≤ 2^63 - 1`. -/
def int64InRange (n : Int) : Bool :=
  -9223372036854775808 ≤ n && n ≤ 9223372036854775807

/-- Parse of an external key string as the `BIGINT` column type: an
optional `+` or `-` sign followed by at least one decimal digit and
nothing else, the value lying within the signed 64-bit range — an
out-of-range literal makes the query reject with an out-of-range
error, exactly like a non-numeric one. -/
def bigintOfString? (s : String) : Option Int :=
  match s.data with
  | '-' :: cs =>
    if cs ≠ [] && cs.all Char.isDigit && int64InRange (-(natOfDigits cs : Int)) then
      some (-(natOfDigits cs : Int))
    else none
  | '+' :: cs =>
    if cs ≠ [] && cs.all Char.isDigit && int64InRange ((natOfDigits cs : Int)) then
      some ((natOfDigits cs : Int))
    else none
  | cs =>
    if cs ≠ [] && cs.all Char.isDigit && int64InRange ((natOfDigits cs : Int)) then
      some ((natOfDigits cs : Int))
    else none

/-- `SupabaseService.delete(tableName, id)`:
`DELETE FROM users WHERE id = ?`. The filter value must parse as the
`BIGINT` key type, otherwise the query itself rejects; a parseable key
deletes every matching row and reports nothing about how many matched. -/
def SupabaseService.delete (s : SqlState) (id : String) :
    Except SqlError SqlState :=
  match bigintOfString? id with
  | none => .error (.queryError "invalid input syntax for type bigint")
  | some n => .ok { rows := s.rows.filter (fun r => (r.id : Int) ≠ n), nextId := s.nextId }

/-! ## Document store (MongoDB) -/

/-- A stored `users` document. The adapter assigns `_id` (an
object-identifier string) and the two ISO-8601 timestamp stamps; the
data fields are those the POST route inserts. -/
structure MongoDoc where
  _id : String
  name : String
  email : String
  age : Int
  createdAt : String
  updatedAt : String
deriving DecidableEq, Repr

/-- State of the document collection: the stored documents plus a
counter from which the store derives fresh object identifiers. -/
structure MongoState where
  docs : List MongoDoc
  nextOid : Nat
deriving DecidableEq, Repr

/-- The document the caller hands to `insertOne(collectionName,
document)`. Besides the three data fields the caller may supply its own
`createdAt` / `updatedAt` entries (the parameter is untyped `any` in
the source); the adapter spreads the document and then overwrites both
stamps. -/
structure MongoInput where
  name : String
  email : String
  age : Int
  createdAt : Option String
  updatedAt : Option String
deriving DecidableEq, Repr

/-- Hexadecimal digit as accepted in an object-identifier string. -/
def isHexDigit (c : Char) : Bool :=
  c.isDigit || ('a' ≤ c && c ≤ 'f') || ('A' ≤ c && c ≤ 'F')

/-- Validity of an external identity string as a 24-character
hexadecimal object identifier; `new ObjectId(id)` throws a BSON error
on anything else. -/
def validOidString (s : String) : Bool :=
  s.data.length = 24 && s.data.all isHexDigit

/-- Lower-casing of a hexadecimal digit character. -/
def lowerHexChar : Char → Char
  | 'A' => 'a' | 'B' => 'b' | 'C' => 'c'
  | 'D' => 'd' | 'E' => 'e' | 'F' => 'f'
  | c => c

/-- `new ObjectId(id)`: `none` embeds the thrown BSON format error; a
valid string is normalized to lower case, the identifier's canonical
form under which the driver compares identities. -/
def parseOid (s : String) : Option String :=
  if validOidString s then some (String.mk (s.data.map lowerHexChar)) else none

/-- The canonical object-identifier string the store assigns to the
`n`-th inserted document: the hexadecimal rendering of `n` padded to
24 digits. -/
def oidString (n : Nat) : String :=
  ⟨List.replicate (24 - (Nat.toDigits 16 n).length) '0' ++ Nat.toDigits 16 n⟩

/-- `findOne({ _id })` on the collection. -/
def mongoFindOne (s : MongoState) (id : String) : Option MongoDoc :=
  s.docs.find? (fun d => d._id = id)

/-- Lexicographic comparison of character lists by code point, the
order under which the document store compares string-valued sort keys
(ISO-8601 stamps compare chronologically under it). -/
def charListLe : List Char → List Char → Bool
  | [], _ => true
  | _ :: _, [] => false
  | a :: as, b :: bs =>
    if a.toNat < b.toNat then true
    else if b.toNat < a.toNat then false
    else charListLe as bs

/-- Descending order on documents by creation stamp, the comparison
`findAll`'s `.sort({ createdAt: -1 })` requests. -/
def mongoDescRel (a b : MongoDoc) : Prop :=
  charListLe b.createdAt.data a.createdAt.data = true

instance : DecidableRel mongoDescRel :=
  fun a b => instDecidableEqBool (charListLe b.createdAt.data a.createdAt.data) true

/-- `MongoDBService.findAll(collectionName)`:
`find({}).sort({ createdAt: -1 }).toArray()`. -/
def MongoDBService.findAll (s : MongoState) : List MongoDoc :=
  s.docs.insertionSort mongoDescRel

/-- `MongoDBService.insertOne(collectionName, document)`: builds
`{ ...document, createdAt: new Date().toISOString(), updatedAt:
new Date().toISOString() }` — the object-spread semantics make the two
fresh clock reads `nowC`, `nowU` override any caller-supplied stamps —
inserts it under a store-assigned identifier, then re-reads the
inserted document with `findOne({ _id: result.insertedId })` and
returns that re-read document. -/
def MongoDBService.insertOne (s : MongoState) (nowC nowU : String)
    (doc : MongoInput) : Option MongoDoc × MongoState :=
  let stored : MongoDoc :=
    { _id := oidString s.nextOid, name := doc.name, email := doc.email
      age := doc.age, createdAt := nowC, updatedAt := nowU }
  let s' : MongoState := { docs := s.docs ++ [stored], nextOid := s.nextOid + 1 }
  (mongoFindOne s' stored._id, s')

/-- The delete result the driver returns: how many documents were
deleted (`0` or `1` for `deleteOne`). -/
structure DeleteResult where
  deletedCount : Nat
deriving DecidableEq, Repr

/-- The document-backend failure relevant here: `new ObjectId(id)`
throwing on a malformed identifier string. -/
inductive MongoError where
  | bsonError : MongoError
deriving DecidableEq, Repr

/-- `MongoDBService.deleteOne(collectionName, id)`: converts the
external identity string with `new ObjectId(id)` (throwing a BSON
error on malformed input) and runs `deleteOne({ _id })`, which removes
the first matching document and reports the deleted count. -/
def MongoDBService.deleteOne (s : MongoState) (id : String) :
    Except MongoError (DeleteResult × MongoState) :=
  match parseOid id with
  | none => .error .bsonError
  | some oid =>
    match s.docs.find? (fun d => d._id = oid) with
    | none => .ok ({ deletedCount := 0 }, s)
    | some d => .ok ({ deletedCount := 1 },
        { docs := s.docs.erase d, nextOid := s.nextOid })

/-! ## Connection caching (`connectToMongoDB`, `MongoDBService.init`) -/

/-- Process-wide connection bookkeeping: the module-level
`cachedClient` / `cachedDb` globals, the service instance's private
`db` field, and a count of how many times `client.connect()` has been
invoked. Handles are numbered by the connect attempt that created
them. -/
structure ConnState where
  cachedClient : Option Nat
  cachedDb : Option Nat
  serviceDb : Option Nat
  connects : Nat
deriving DecidableEq, Repr

/-- The state at process start: nothing cached, no connection made. -/
def initialConnState : ConnState :=
  { cachedClient := none, cachedDb := none, serviceDb := none, connects := 0 }

/-- `connectToMongoDB()`: returns the cached client/db pair when both
are present; otherwise creates a client, connects (counted), selects
the database and caches both. Connection attempts succeed in this
sequential embedding. -/
def connectToMongoDB (s : ConnState) : ConnState × Nat :=
  match s.cachedClient, s.cachedDb with
  | some _, some d => (s, d)
  | _, _ =>
    let h := s.connects
    ({ cachedClient := some h, cachedDb := some h
       serviceDb := s.serviceDb, connects := s.connects + 1 }, h)

/-- `MongoDBService.init()`: on first use obtains the database handle
from `connectToMongoDB` and stores it in the instance field; later
calls return the stored handle. -/
def MongoDBService.init (s : ConnState) : ConnState × Nat :=
  match s.serviceDb with
  | some d => (s, d)
  | none =>
    let p := connectToMongoDB s
    ({ p.1 with serviceDb := some p.2 }, p.2)

/-- `MongoDBService.getCollection(collectionName)`: awaits `init` and
selects the collection on the returned handle. -/
def MongoDBService.getCollection (s : ConnState) : ConnState × Nat :=
  MongoDBService.init s

/-- The four adapter operations; as far as the connection state is
concerned each begins with `getCollection` and touches nothing else. -/
inductive MongoOp where
  | findAll | insertOne | deleteOne | updateOne
deriving DecidableEq, Repr

/-- Effect of one adapter operation on the connection state. -/
def runOp (s : ConnState) (_ : MongoOp) : ConnState :=
  (MongoDBService.getCollection s).1

/-- Sequential execution of a list of adapter operations. -/
def runOps (s : ConnState) : List MongoOp → ConnState
  | [] => s
  | op :: rest => runOps (runOp s op) rest

/-! ## Route layer -/

/-- The JSON envelope a route responds with, together with its HTTP
status. Absent JSON fields are `none` / `[]`; the relational and
document routes instantiate `α` with their row/document types. -/
structure ApiResponse (α : Type) where
  status : Nat
  success : Bool
  user : Option α := none
  users : List α := []
  error : Option String := none
  message : Option String := none
  database : Option String := none
  dbType : Option String := none
deriving DecidableEq, Repr

/-- GET `/api/supabase/users`: wraps `supabaseService.getAll("users")`
in the success envelope (the service throws only on a query error,
which the DDL-conformant store never produces for a plain select). -/
def supabaseGET (s : SqlState) : ApiResponse SqlRow :=
  { status := 200, success := true, users := SupabaseService.getAll s
    database := some "supabase", dbType := some "SQL" }

/-- GET `/api/mongodb/users`: wraps `mongoService.findAll("users")`. -/
def mongoGET (s : MongoState) : ApiResponse MongoDoc :=
  { status := 200, success := true, users := MongoDBService.findAll s
    database := some "mongodb", dbType := some "NoSQL" }

/-- The envelope the relational POST route builds from the outcome of
`supabaseService.insert`: on success `{ success: true, user:
newUser[0], database, type }` (the first element of the returned list;
absent when the list is empty), on a thrown error the catch-all
failure envelope with status 500. -/
def sqlCreateResponse (result : Except SqlError (List SqlRow)) :
    ApiResponse SqlRow :=
  match result with
  | .ok newUser =>
    { status := 200, success := true, user := newUser.head?
      database := some "supabase", dbType := some "SQL" }
  | .error _ =>
    { status := 500, success := false
      error := some "Failed to create user in Supabase" }

/-- POST `/api/supabase/users`: destructures `{ name, email, age }`,
guards `!name || !email || !age` with a 400 envelope, otherwise calls
`supabaseService.insert("users", { name, email, age:
Number.parseInt(age) })` and wraps the outcome. -/
def supabasePOST (s : SqlState) (now : Nat) (body : ReqBody) :
    ApiResponse SqlRow × SqlState :=
  if sfalsy body.name || sfalsy body.email || jfalsy body.age then
    ({ status := 400, success := false
       error := some "Name, email, and age are required" }, s)
  else
    let input : SqlInsertInput :=
      { name := body.name.getD "", email := body.email.getD ""
        age := parseIntJS (body.age.getD (.jnum 0)) }
    match SupabaseService.insert s now input with
    | .ok (rows, s') => (sqlCreateResponse (.ok rows), s')
    | .error e => (sqlCreateResponse (.error e), s)

/-- POST `/api/mongodb/users`: same `!name || !email || !age` guard,
then `mongoService.insertOne("users", { name, email, age:
Number.parseInt(age) })`, wrapping the returned document as `user`. -/
def mongoPOST (s : MongoState) (nowC nowU : String) (body : ReqBody) :
    ApiResponse MongoDoc × MongoState :=
  if sfalsy body.name || sfalsy body.email || jfalsy body.age then
    ({ status := 400, success := false
       error := some "Name, email, and age are required" }, s)
  else
    let input : MongoInput :=
      { name := body.name.getD "", email := body.email.getD ""
        age := parseIntJS (body.age.getD (.jnum 0))
        createdAt := none, updatedAt := none }
    let p := MongoDBService.insertOne s nowC nowU input
    ({ status := 200, success := true, user := p.1
       database := some "mongodb", dbType := some "NoSQL" }, p.2)

/-- DELETE `/api/supabase/users/[id]`: guards `!id`, calls
`supabaseService.delete("users", id)`, and on no thrown error responds
with the success envelope — the adapter exposes nothing about whether
a row matched. A thrown error lands in the catch-all 500 envelope. -/
def supabaseDELETE (s : SqlState) (id : String) :
    ApiResponse SqlRow × SqlState :=
  if id = "" then
    ({ status := 400, success := false
       error := some "User ID is required" }, s)
  else
    match SupabaseService.delete s id with
    | .error _ =>
      ({ status := 500, success := false
         error := some "Failed to delete user from Supabase" }, s)
    | .ok s' =>
      ({ status := 200, success := true
         message := some "User deleted successfully"
         database := some "supabase", dbType := some "SQL" }, s')

/-- DELETE `/api/mongodb/users/[id]`: guards `!id`, calls
`mongoService.deleteOne("users", id)`; a result with
`deletedCount === 0` yields the 404 not-found envelope, a positive
count the success envelope, and a thrown error (in particular the BSON
identifier-format error) the catch-all 500 envelope. -/
def mongoDELETE (s : MongoState) (id : String) :
    ApiResponse MongoDoc × MongoState :=
  if id = "" then
    ({ status := 400, success := false
       error := some "User ID is required" }, s)
  else
    match MongoDBService.deleteOne s id with
    | .error _ =>
      ({ status := 500, success := false
         error := some "Failed to delete user from MongoDB" }, s)
    | .ok (res, s') =>
      if res.deletedCount = 0 then
        ({ status := 404, success := false
           error := some "User not found" }, s')
      else
        ({ status := 200, success := true
           message := some "User deleted successfully"
           database := some "mongodb", dbType := some "NoSQL" }, s')

/-! ## Presentation layer (`DatabaseTutorial` page component) -/

/-- The `newUser` draft: three text fields. -/
structure DraftUser where
  name : String
  email : String
  age : String
deriving DecidableEq, Repr

/-- The page state touched by the handlers: the fetched `users` list
(elements of whatever shape the selected backend returned, abstracted
as `α`), the draft, and the `loading` flag. -/
structure ClientState (α : Type) where
  users : List α
  newUser : DraftUser
  loading : Bool
deriving DecidableEq, Repr

/-- Outcome of one `fetch`+`response.json()` round trip as the client
observes it: the whole chain threw (network failure / invalid JSON),
or a body was decoded whose `users` field is present or absent. -/
inductive FetchOutcome (α : Type) where
  | netFailure : FetchOutcome α
  | response : Option (List α) → FetchOutcome α
deriving DecidableEq, Repr

/-- Outcome of a mutation round trip: thrown, or a response whose
`response.ok` flag is given, a success triggering a refetch whose own
outcome is carried alongside. -/
inductive MutationOutcome (α : Type) where
  | netFailure : MutationOutcome α
  | response : Bool → FetchOutcome α → MutationOutcome α
deriving DecidableEq, Repr

/-- User-visible side effects of a handler other than state updates:
the missing-field `alert`, or a `console.error` log line. -/
inductive ClientEffect where
  | alertMissingFields | consoleError
deriving DecidableEq, Repr

/-- `fetchUsers`: sets `loading`, awaits the round trip, on a decoded
body replaces the list with `data.users || []` (an envelope without a
`users` field therefore resets the list to empty), on a throw logs to
the console and changes nothing else; `finally` clears `loading`. -/
def fetchUsersClient {α : Type} (st : ClientState α) (out : FetchOutcome α) :
    ClientState α × List ClientEffect :=
  match out with
  | .netFailure => ({ st with loading := false }, [.consoleError])
  | .response u? => ({ st with users := u?.getD [], loading := false }, [])

/-- Whether the client-side required-field check passes: all three
draft fields non-empty. -/
def draftComplete (d : DraftUser) : Bool :=
  d.name ≠ "" && d.email ≠ "" && d.age ≠ ""

/-- `createUser`: alerts and returns if a draft field is empty;
otherwise POSTs the draft, and only when `response.ok` clears the
draft and refetches; an HTTP failure response changes nothing and logs
nothing, a throw logs to the console; `finally` clears `loading`. -/
def createUser {α : Type} (st : ClientState α) (out : MutationOutcome α) :
    ClientState α × List ClientEffect :=
  if ¬ draftComplete st.newUser then
    (st, [.alertMissingFields])
  else
    match out with
    | .netFailure => ({ st with loading := false }, [.consoleError])
    | .response ok refetchOut =>
      if ok then
        fetchUsersClient
          { st with newUser := { name := "", email := "", age := "" } }
          refetchOut
      else
        ({ st with loading := false }, [])

/-- `deleteUser`: issues the DELETE, refetches only when
`response.ok`; an HTTP failure response changes nothing and logs
nothing, a throw logs to the console; `finally` clears `loading`. -/
def deleteUser {α : Type} (st : ClientState α) (out : MutationOutcome α) :
    ClientState α × List ClientEffect :=
  match out with
  | .netFailure => ({ st with loading := false }, [.consoleError])
  | .response ok refetchOut =>
    if ok then fetchUsersClient st refetchOut
    else ({ st with loading := false }, [])

/-! ## Concrete states used in counterexamples -/

/-- A document-store state holding two documents whose `createdAt`
stamps coincide — reachable when two inserts read the clock within the
same millisecond, and in any case a legal state of the schema-less
store. -/
def mongoTieState : MongoState :=
  { docs :=
      [ { _id := oidString 0, name := "Ann", email := "ann@x.com", age := 30
          createdAt := "2024-01-01T00:00:00.000Z", updatedAt := "2024-01-01T00:00:00.000Z" },
        { _id := oidString 1, name := "Bob", email := "bob@x.com", age := 40
          createdAt := "2024-01-01T00:00:00.000Z", updatedAt := "2024-01-01T00:00:00.000Z" } ]
    nextOid := 2 }

/-- A relational-store state holding two rows whose `created_at`
timestamps coincide (two inserts defaulting to the same `NOW()`). -/
def sqlTieState : SqlState :=
  { rows :=
      [ { id := 1, name := "Ann", email := "ann@x.com", age := 30, created_at := 5, updated_at := 5 },
        { id := 2, name := "Bob", email := "bob@x.com", age := 40, created_at := 5, updated_at := 5 } ]
    nextId := 3 }

/-- The connection state after the one and only successful connection:
handle `0` cached at module level and in the service instance, one
`connect()` call made. -/
def connectedState : ConnState :=
  { cachedClient := some 0, cachedDb := some 0, serviceDb := some 0, connects := 1 }

/-! ## Helper lemmas -/

theorem charListLe_total : ∀ as bs, charListLe as bs = true ∨ charListLe bs as = true := by
  intro as
  induction as with
  | nil => intro bs; left; rfl
  | cons a as ih =>
    intro bs
    cases bs with
    | nil => right; rfl
    | cons b bs =>
      simp only [charListLe]
      rcases Nat.lt_trichotomy a.toNat b.toNat with h | h | h
      · left; simp [h]
      · have h1 : ¬ a.toNat < b.toNat := by omega
        have h2 : ¬ b.toNat < a.toNat := by omega
        rcases ih bs with h3 | h3
        · left; simp [h1, h2, h3]
        · right; simp [h1, h2, h3]
      · right; simp [h]

theorem charListLe_trans :
    ∀ as bs cs, charListLe as bs = true → charListLe bs cs = true →
      charListLe as cs = true := by
  intro as
  induction as with
  | nil => intro bs cs _ _; rfl
  | cons a as ih =>
    intro bs cs h1 h2
    cases bs with
    | nil => simp [charListLe] at h1
    | cons b bs =>
      cases cs with
      | nil => simp [charListLe] at h2
      | cons c cs =>
        simp only [charListLe] at h1 h2 ⊢
        split_ifs at h1 h2 ⊢ <;> first | rfl | omega | exact ih bs cs h1 h2

theorem runOps_connected : ∀ ops, runOps connectedState ops = connectedState := by
  intro ops
  induction ops with
  | nil => rfl
  | cons op rest ih =>
    simpa [runOps, runOp, MongoDBService.getCollection, MongoDBService.init,
      connectedState] using ih

theorem parseOid_ne_empty {id oid : String} (h : parseOid id = some oid) : id ≠ "" := by
  intro he
  subst he
  simp [parseOid, validOidString] at h

theorem bigintOfString?_ne_empty {id : String} {n : Int} (h : bigintOfString? id = some n) :
    id ≠ "" := by
  intro he
  subst he
  simp [bigintOfString?] at h

/-! ## Claim C1 -/

/-- Claim C1, counterexample: a create request whose body carries the
JSON number `0` as `age` (with name and email present) is rejected by
the document-backend POST route with status 400 and does not store a
record — the `!age` presence guard treats the number `0` as missing —
contradicting the claim that the document-backend create with age `0`
succeeds and stores the record. -/
theorem claim_C1_counterexample :
    (mongoPOST { docs := [], nextOid := 0 } "t" "t"
        { name := some "Ann", email := some "ann@x.com", age := some (.jnum 0) }).1.success = false ∧
    (mongoPOST { docs := [], nextOid := 0 } "t" "t"
        { name := some "Ann", email := some "ann@x.com", age := some (.jnum 0) }).1.status = 400 ∧
    (mongoPOST { docs := [], nextOid := 0 } "t" "t"
        { name := some "Ann", email := some "ann@x.com", age := some (.jnum 0) }).2.docs = [] := by
  decide

/-- Claim C1, amended: for a create request with `age = 150` (which
passes the routes' truthiness guard) the relational create fails with
status 500 — the schema's range check rejects the record — and leaves
the table unchanged, while the document create succeeds and stores the
record; a body whose `age` is the JSON number `0`, however, is falsy
under the `!age` guard, so both backends' routes reject it with status
400 before any adapter call and both stores are unchanged. -/
theorem claim_C1_amended (s : SqlState) (ms : MongoState) (now : Nat) (nC nU : String)
    (name email : String) (hn : name ≠ "") (he : email ≠ "") :
    (supabasePOST s now { name := some name, email := some email, age := some (.jnum 150) }).1.status = 500 ∧
    (supabasePOST s now { name := some name, email := some email, age := some (.jnum 150) }).2 = s ∧
    (mongoPOST ms nC nU { name := some name, email := some email, age := some (.jnum 150) }).1.status = 200 ∧
    (mongoPOST ms nC nU { name := some name, email := some email, age := some (.jnum 150) }).2.docs
      = ms.docs ++ [{ _id := oidString ms.nextOid, name := name, email := email
                      age := 150, createdAt := nC, updatedAt := nU }] ∧
    (supabasePOST s now { name := some name, email := some email, age := some (.jnum 0) }).1.status = 400 ∧
    (supabasePOST s now { name := some name, email := some email, age := some (.jnum 0) }).2 = s ∧
    (mongoPOST ms nC nU { name := some name, email := some email, age := some (.jnum 0) }).1.status = 400 ∧
    (mongoPOST ms nC nU { name := some name, email := some email, age := some (.jnum 0) }).2 = ms := by
  refine ⟨?_, ?_, ?_, ?_, ?_, ?_, ?_, ?_⟩ <;>
    simp [supabasePOST, mongoPOST, sfalsy, jfalsy, JVal.falsy, hn, he, parseIntJS,
      SupabaseService.insert, sqlAgeCheck, sqlCreateResponse,
      MongoDBService.insertOne, mongoFindOne]

/-- Claim C1, witness: the amended theorem applied at empty stores
with name `"Ann"` and email `"ann@x.com"`. -/
theorem claim_C1_witness :
    (supabasePOST { rows := [], nextId := 1 } 0
        { name := some "Ann", email := some "ann@x.com", age := some (.jnum 150) }).1.status = 500 ∧
    (mongoPOST { docs := [], nextOid := 0 } "t" "t"
        { name := some "Ann", email := some "ann@x.com", age := some (.jnum 150) }).1.status = 200 := by
  have h := claim_C1_amended { rows := [], nextId := 1 } { docs := [], nextOid := 0 }
    0 "t" "t" "Ann" "ann@x.com" (by decide) (by decide)
  exact ⟨h.1, h.2.2.1⟩

/-! ## Claim C2 -/

/-- Claim C2, counterexample: the identity string `"zzz"` matches no
stored document (the store is empty), yet the document-backend DELETE
responds 500 — `new ObjectId("zzz")` throws a BSON format error before
any `deletedCount` exists — not the claimed 404; likewise the
relational DELETE with the non-numeric identity `"abc"`, or with the
all-digit identity `"99999999999999999999"` that exceeds the `BIGINT`
range, responds 500, not the claimed success envelope. -/
theorem claim_C2_counterexample :
    (mongoDELETE { docs := [], nextOid := 0 } "zzz").1.status = 500 ∧
    (mongoDELETE { docs := [], nextOid := 0 } "zzz").1.status ≠ 404 ∧
    (supabaseDELETE { rows := [], nextId := 1 } "abc").1.status = 500 ∧
    (supabaseDELETE { rows := [], nextId := 1 } "abc").1.success = false ∧
    (supabaseDELETE { rows := [], nextId := 1 } "99999999999999999999").1.status = 500 := by
  decide

/-- Claim C2, amended: for every identity in the backend's valid key
format that matches no stored record, the document adapter's deleteOne
returns deletedCount 0 and the route responds with the 404 not-found
failure envelope, whereas the relational DELETE responds with the
success envelope, its adapter returning no error and no indication of
whether a row matched; identities in an invalid key format — for the
relational backend, non-numeric strings as well as numerals outside
the signed 64-bit `BIGINT` range — instead make either adapter throw
and the route respond 500. -/
theorem claim_C2_amended (ms : MongoState) (s : SqlState) (idM idS : String)
    (oid : String) (n : Int)
    (hpm : parseOid idM = some oid) (hm : ∀ d ∈ ms.docs, d._id ≠ oid)
    (hps : bigintOfString? idS = some n) (hs : ∀ r ∈ s.rows, (r.id : Int) ≠ n) :
    MongoDBService.deleteOne ms idM = .ok ({ deletedCount := 0 }, ms) ∧
    (mongoDELETE ms idM).1.status = 404 ∧
    (mongoDELETE ms idM).1.success = false ∧
    (mongoDELETE ms idM).2 = ms ∧
    SupabaseService.delete s idS = .ok s ∧
    (supabaseDELETE s idS).1.status = 200 ∧
    (supabaseDELETE s idS).1.success = true ∧
    (supabaseDELETE s idS).2 = s := by
  have hdel : MongoDBService.deleteOne ms idM = .ok ({ deletedCount := 0 }, ms) := by
    have hnone : ms.docs.find? (fun d => d._id = oid) = none := by
      rw [List.find?_eq_none]
      intro d hd
      simpa using hm d hd
    simp [MongoDBService.deleteOne, hpm, hnone]
  have hsqldel : SupabaseService.delete s idS = .ok s := by
    have hall : s.rows.filter (fun r => decide ((r.id : Int) ≠ n)) = s.rows := by
      rw [List.filter_eq_self]
      intro r hr
      simpa using hs r hr
    simp only [SupabaseService.delete, hps]
    rw [hall]
  refine ⟨hdel, ?_, ?_, ?_, hsqldel, ?_, ?_, ?_⟩ <;>
    simp [mongoDELETE, supabaseDELETE, parseOid_ne_empty hpm, bigintOfString?_ne_empty hps,
      hdel, hsqldel]

/-- Claim C2, witness: the amended theorem applied at empty stores,
with the well-formed document identity `"aaaaaaaaaaaaaaaaaaaaaaaa"`
and the numeric relational identity `"5"`. -/
theorem claim_C2_witness :
    (mongoDELETE { docs := [], nextOid := 0 } "aaaaaaaaaaaaaaaaaaaaaaaa").1.status = 404 ∧
    (supabaseDELETE { rows := [], nextId := 1 } "5").1.status = 200 := by
  have h := claim_C2_amended { docs := [], nextOid := 0 } { rows := [], nextId := 1 }
    "aaaaaaaaaaaaaaaaaaaaaaaa" "5" "aaaaaaaaaaaaaaaaaaaaaaaa" 5
    (by decide) (by simp) (by decide) (by simp)
  exact ⟨h.2.1, h.2.2.2.2.2.1⟩

/-! ## Claim C3 -/

/-- Claim C3, counterexample: a fetch round trip that comes back as a
failure envelope (a decoded body with no `users` field, as the routes'
500 responses are) resets the previously fetched users list to empty —
`setUsers(data.users || [])` — and logs nothing, contradicting the
claim that every failed round trip is logged and leaves the fetched
list unchanged. -/
theorem claim_C3_counterexample :
    (fetchUsersClient
        { users := [7], newUser := { name := "", email := "", age := "" }, loading := false }
        (FetchOutcome.response (none : Option (List Nat)))).1.users = [] ∧
    (fetchUsersClient
        { users := [7], newUser := { name := "", email := "", age := "" }, loading := false }
        (FetchOutcome.response (none : Option (List Nat)))).2 = [] := by
  decide

/-- Claim C3, amended: a thrown (network-level) failure of a fetch,
create, or delete round trip is logged to the developer console and
leaves the fetched users list and the draft unchanged; an HTTP failure
response, by contrast, is not logged — create and delete then leave
all state unchanged, but a fetch whose decoded envelope lacks a
`users` field resets the fetched list to empty; the only user-facing
message is the alert shown by the client-side missing-field check. -/
theorem claim_C3_amended {α : Type} (st : ClientState α) (mout : MutationOutcome α) :
    (fetchUsersClient st FetchOutcome.netFailure
        = ({ st with loading := false }, [ClientEffect.consoleError])) ∧
    (fetchUsersClient st (FetchOutcome.response none)
        = ({ st with users := [], loading := false }, [])) ∧
    (∀ us : List α, fetchUsersClient st (FetchOutcome.response (some us))
        = ({ st with users := us, loading := false }, [])) ∧
    (draftComplete st.newUser = true →
      createUser st MutationOutcome.netFailure
          = ({ st with loading := false }, [ClientEffect.consoleError]) ∧
      ∀ ro, createUser st (MutationOutcome.response false ro)
          = ({ st with loading := false }, [])) ∧
    (draftComplete st.newUser = false →
      createUser st mout = (st, [ClientEffect.alertMissingFields])) ∧
    (deleteUser st MutationOutcome.netFailure
        = ({ st with loading := false }, [ClientEffect.consoleError])) ∧
    (∀ ro, deleteUser st (MutationOutcome.response false ro)
        = ({ st with loading := false }, [])) := by
  refine ⟨rfl, rfl, fun us => rfl, fun h => ⟨?_, fun ro => ?_⟩, fun h => ?_, rfl, fun ro => rfl⟩
  · simp [createUser, h]
  · simp [createUser, h]
  · simp [createUser, h]

/-- Claim C3, witness: the amended theorem applied at a state with a
complete draft, and again at a state with an empty draft. -/
theorem claim_C3_witness :
    (createUser { users := ([7] : List Nat), newUser := { name := "a", email := "b", age := "c" }, loading := false }
        MutationOutcome.netFailure).2 = [ClientEffect.consoleError] ∧
    (createUser { users := ([7] : List Nat), newUser := { name := "", email := "", age := "" }, loading := false }
        MutationOutcome.netFailure).2 = [ClientEffect.alertMissingFields] := by
  have h1 := claim_C3_amended
    { users := ([7] : List Nat), newUser := { name := "a", email := "b", age := "c" }, loading := false }
    MutationOutcome.netFailure
  have h2 := claim_C3_amended
    { users := ([7] : List Nat), newUser := { name := "", email := "", age := "" }, loading := false }
    MutationOutcome.netFailure
  exact ⟨by rw [(h1.2.2.2.1 (by decide)).1], by rw [h2.2.2.2.2.1 (by decide)]⟩

/-! ## Claim C4 -/

/-- Claim C4: a relational create whose email is already stored fails
with the email-uniqueness constraint error (for any input passing the
schema's age check), while a document create with a duplicate email
succeeds, appending the new document, after which at least two stored
documents carry that email — no uniqueness is enforced. -/
theorem claim_C4 (s : SqlState) (now : Nat) (input : SqlInsertInput)
    (ms : MongoState) (nC nU : String) (minput : MongoInput)
    (hage : sqlAgeCheck input.age = true)
    (hdup : ∃ r ∈ s.rows, r.email = input.email)
    (hmdup : ∃ d ∈ ms.docs, d.email = minput.email) :
    SupabaseService.insert s now input = .error (.constraintError "users_email_key") ∧
    (MongoDBService.insertOne ms nC nU minput).2.docs
      = ms.docs ++ [{ _id := oidString ms.nextOid, name := minput.name
                      email := minput.email, age := minput.age
                      createdAt := nC, updatedAt := nU }] ∧
    2 ≤ ((MongoDBService.insertOne ms nC nU minput).2.docs.filter
          (fun d => d.email = minput.email)).length := by
  obtain ⟨r, hr, hre⟩ := hdup
  refine ⟨?_, rfl, ?_⟩
  · have hfree : sqlEmailFree s input.email = false := by
      simp only [sqlEmailFree, List.all_eq_false]
      exact ⟨r, hr, by simp [hre]⟩
    simp [SupabaseService.insert, hage, hfree]
  · obtain ⟨d, hd, hde⟩ := hmdup
    have h1 : d ∈ ms.docs.filter (fun x => decide (x.email = minput.email)) := by
      rw [List.mem_filter]
      exact ⟨hd, by simp [hde]⟩
    have h2 : 1 ≤ (ms.docs.filter (fun x => decide (x.email = minput.email))).length :=
      List.length_pos.mpr (List.ne_nil_of_mem h1)
    simp only [MongoDBService.insertOne, List.filter_append, List.length_append]
    simp [List.filter]
    omega

/-- Claim C4, witness: the theorem applied at one-record stores that
already hold the email `"ann@x.com"`. -/
theorem claim_C4_witness :
    SupabaseService.insert
        { rows := [{ id := 1, name := "Ann", email := "ann@x.com", age := 30
                     created_at := 0, updated_at := 0 }], nextId := 2 }
        7 { name := "Bob", email := "ann@x.com", age := 40 }
      = .error (.constraintError "users_email_key") ∧
    2 ≤ ((MongoDBService.insertOne
          { docs := [{ _id := oidString 0, name := "Ann", email := "ann@x.com", age := 30
                       createdAt := "t0", updatedAt := "t0" }], nextOid := 1 }
          "t1" "t1"
          { name := "Bob", email := "ann@x.com", age := 40
            createdAt := none, updatedAt := none }).2.docs.filter
          (fun d => d.email = "ann@x.com")).length := by
  have h := claim_C4
    { rows := [{ id := 1, name := "Ann", email := "ann@x.com", age := 30
                 created_at := 0, updated_at := 0 }], nextId := 2 }
    7 { name := "Bob", email := "ann@x.com", age := 40 }
    { docs := [{ _id := oidString 0, name := "Ann", email := "ann@x.com", age := 30
                 createdAt := "t0", updatedAt := "t0" }], nextOid := 1 }
    "t1" "t1"
    { name := "Bob", email := "ann@x.com", age := 40, createdAt := none, updatedAt := none }
    (by decide) (by decide) (by decide)
  exact ⟨h.1, h.2.2⟩

/-! ## Claim C5 -/

/-- Claim C5, counterexample: on a store holding two records with
equal creation timestamps — a legal state for either backend — the
listing is not strictly descending: some adjacent pair fails the
strict comparison, for the document and the relational adapter alike. -/
theorem claim_C5_counterexample :
    ¬ (MongoDBService.findAll mongoTieState).Pairwise
        (fun a b => charListLe a.createdAt.data b.createdAt.data = false) ∧
    ¬ (SupabaseService.getAll sqlTieState).Pairwise
        (fun a b => b.created_at < a.created_at) ∧
    (MongoDBService.findAll mongoTieState).length = 2 ∧
    (SupabaseService.getAll sqlTieState).length = 2 := by
  decide

/-- Claim C5, amended: for every state of either store, the sequence
returned by the relational adapter's getAll and the document adapter's
findAll is sorted by non-increasing (weakly descending) creation
timestamp — records with equal timestamps may be adjacent in either
order — and is a permutation of the stored records. -/
theorem claim_C5_amended (s : SqlState) (ms : MongoState) :
    List.Sorted sqlDescRel (SupabaseService.getAll s) ∧
    List.Sorted mongoDescRel (MongoDBService.findAll ms) ∧
    (SupabaseService.getAll s).Perm s.rows ∧
    (MongoDBService.findAll ms).Perm ms.docs := by
  refine ⟨?_, ?_, ?_, ?_⟩
  · exact @List.sorted_insertionSort SqlRow sqlDescRel _
      ⟨fun a b => Nat.le_total b.created_at a.created_at⟩
      ⟨fun a b c hab hbc => Nat.le_trans hbc hab⟩ s.rows
  · exact @List.sorted_insertionSort MongoDoc mongoDescRel _
      ⟨fun a b => charListLe_total b.createdAt.data a.createdAt.data⟩
      ⟨fun a b c hab hbc => charListLe_trans _ _ _ hbc hab⟩ ms.docs
  · exact List.perm_insertionSort sqlDescRel s.rows
  · exact List.perm_insertionSort mongoDescRel ms.docs

/-! ## Claim C6 -/

/-- Claim C6, counterexample: a create request whose body has all
three fields present — `age` being the JSON number `0` — does not
proceed to the adapter: both backends' POST routes respond 400 (and
the relational store is unchanged), because the `!age` guard conflates
the present value `0` with a missing field. -/
theorem claim_C6_counterexample :
    ({ name := some "Ann", email := some "ann@x.com", age := some (.jnum 0) } : ReqBody).name ≠ none ∧
    ({ name := some "Ann", email := some "ann@x.com", age := some (.jnum 0) } : ReqBody).email ≠ none ∧
    ({ name := some "Ann", email := some "ann@x.com", age := some (.jnum 0) } : ReqBody).age ≠ none ∧
    (supabasePOST { rows := [], nextId := 1 } 0
        { name := some "Ann", email := some "ann@x.com", age := some (.jnum 0) }).1.status = 400 ∧
    (supabasePOST { rows := [], nextId := 1 } 0
        { name := some "Ann", email := some "ann@x.com", age := some (.jnum 0) }).2
      = { rows := [], nextId := 1 } ∧
    (mongoPOST { docs := [], nextOid := 0 } "t" "t"
        { name := some "Ann", email := some "ann@x.com", age := some (.jnum 0) }).1.status = 400 := by
  decide

/-- Claim C6, amended: a create request missing `name`, `email`, or
`age` is answered 400 by both backends' POST routes with the store
left unchanged (no adapter call); a request whose three fields are
present and truthy — non-empty strings, `age` neither the number `0`
nor the empty string — proceeds to the adapter with `age` coerced by
`Number.parseInt` and no range check at the route layer: the document
create succeeds for any coerced age, and the relational route merely
passes the adapter's verdict through as its envelope. -/
theorem claim_C6_amended (s : SqlState) (ms : MongoState) (now : Nat) (nC nU : String) :
    (∀ body : ReqBody, body.name = none ∨ body.email = none ∨ body.age = none →
      (supabasePOST s now body).1.status = 400 ∧ (supabasePOST s now body).2 = s ∧
      (mongoPOST ms nC nU body).1.status = 400 ∧ (mongoPOST ms nC nU body).2 = ms) ∧
    (∀ (name email : String) (v : JVal), name ≠ "" → email ≠ "" → JVal.falsy v = false →
      (mongoPOST ms nC nU { name := some name, email := some email, age := some v }).1.status = 200 ∧
      (mongoPOST ms nC nU { name := some name, email := some email, age := some v }).2.docs
        = ms.docs ++ [{ _id := oidString ms.nextOid, name := name, email := email
                        age := parseIntJS v, createdAt := nC, updatedAt := nU }] ∧
      (∀ (rows : List SqlRow) (s' : SqlState),
        SupabaseService.insert s now { name := name, email := email, age := parseIntJS v } = .ok (rows, s') →
        supabasePOST s now { name := some name, email := some email, age := some v }
          = (sqlCreateResponse (.ok rows), s')) ∧
      (∀ e : SqlError,
        SupabaseService.insert s now { name := name, email := email, age := parseIntJS v } = .error e →
        supabasePOST s now { name := some name, email := some email, age := some v }
          = (sqlCreateResponse (.error e), s))) := by
  constructor
  · intro body hmiss
    have hfalsy : (sfalsy body.name || sfalsy body.email || jfalsy body.age) = true := by
      rcases hmiss with h | h | h <;> simp [h, sfalsy, jfalsy]
    refine ⟨?_, ?_, ?_, ?_⟩ <;> simp [supabasePOST, mongoPOST, hfalsy]
  · intro name email v hn he hv
    have hfalsy : (sfalsy (some name) || sfalsy (some email) || jfalsy (some v)) = false := by
      simp [sfalsy, jfalsy, hn, he, hv]
    refine ⟨?_, ?_, ?_, ?_⟩
    · simp [mongoPOST, hfalsy, MongoDBService.insertOne, mongoFindOne]
    · simp [mongoPOST, hfalsy, MongoDBService.insertOne, mongoFindOne]
    · intro rows s' hins
      simp [supabasePOST, hfalsy, hins]
    · intro e hins
      simp [supabasePOST, hfalsy, hins]

/-- Claim C6, witness: the amended theorem applied at empty stores to
a body missing its name, and to a fully-truthy body. -/
theorem claim_C6_witness :
    (supabasePOST { rows := [], nextId := 1 } 0
        { name := none, email := some "ann@x.com", age := some (.jnum 30) }).1.status = 400 ∧
    (mongoPOST { docs := [], nextOid := 0 } "t" "t"
        { name := some "Ann", email := some "ann@x.com", age := some (.jnum 30) }).1.status = 200 := by
  have h := claim_C6_amended { rows := [], nextId := 1 } { docs := [], nextOid := 0 } 0 "t" "t"
  exact ⟨(h.1 { name := none, email := some "ann@x.com", age := some (.jnum 30) } (Or.inl rfl)).1,
    (h.2 "Ann" "ann@x.com" (.jnum 30) (by decide) (by decide) (by decide)).1⟩

/-! ## Claim C7 -/

/-- Claim C7: for every input document, the document adapter's
insertOne stores the document with `createdAt` and `updatedAt` set to
the adapter's wall-clock reads (`new Date().toISOString()`, the `nC`
and `nU` parameters), appending it to the collection under the
identifier assigned at insertion, and returns exactly the document
re-read by that identifier — which, the assigned identifier being
fresh, is the stored document itself. -/
theorem claim_C7 (ms : MongoState) (nC nU : String) (doc : MongoInput)
    (hfresh : ∀ d ∈ ms.docs, d._id ≠ oidString ms.nextOid) :
    MongoDBService.insertOne ms nC nU doc =
      (some { _id := oidString ms.nextOid, name := doc.name, email := doc.email
              age := doc.age, createdAt := nC, updatedAt := nU },
       { docs := ms.docs ++ [{ _id := oidString ms.nextOid, name := doc.name
                               email := doc.email, age := doc.age
                               createdAt := nC, updatedAt := nU }]
         nextOid := ms.nextOid + 1 }) := by
  simp only [MongoDBService.insertOne, mongoFindOne]
  have hnone : ms.docs.find? (fun d => d._id = oidString ms.nextOid) = none := by
    rw [List.find?_eq_none]
    intro d hd
    simpa using hfresh d hd
  rw [List.find?_append, hnone]
  simp

/-- Claim C7, witness: the theorem applied at the empty collection
with the clock reading `"2024-01-01T00:00:00.000Z"`. -/
theorem claim_C7_witness :
    MongoDBService.insertOne { docs := [], nextOid := 0 }
        "2024-01-01T00:00:00.000Z" "2024-01-01T00:00:00.000Z"
        { name := "Ann", email := "ann@x.com", age := 30, createdAt := none, updatedAt := none } =
      (some { _id := oidString 0, name := "Ann", email := "ann@x.com", age := 30
              createdAt := "2024-01-01T00:00:00.000Z", updatedAt := "2024-01-01T00:00:00.000Z" },
       { docs := [{ _id := oidString 0, name := "Ann", email := "ann@x.com", age := 30
                    createdAt := "2024-01-01T00:00:00.000Z", updatedAt := "2024-01-01T00:00:00.000Z" }]
         nextOid := 1 }) :=
  claim_C7 { docs := [], nextOid := 0 } "2024-01-01T00:00:00.000Z" "2024-01-01T00:00:00.000Z"
    { name := "Ann", email := "ann@x.com", age := 30, createdAt := none, updatedAt := none }
    (by simp)

/-! ## Claim C8 -/

/-- Claim C8: under sequential execution from process start, any
sequence of adapter operations (findAll, insertOne, deleteOne,
updateOne) performs at most one connection attempt; once the sequence
is non-empty the state is exactly the connected state — handle 0
cached at module level and in the service instance, one `connect()`
call — and every further operation leaves it untouched, so the cached
handle is reused without reconnecting and never torn down. -/
theorem claim_C8 (ops : List MongoOp) :
    (runOps initialConnState ops).connects ≤ 1 ∧
    (ops ≠ [] → runOps initialConnState ops = connectedState) := by
  cases ops with
  | nil => exact ⟨by simp [runOps, initialConnState], by simp⟩
  | cons op rest =>
    have h : runOps initialConnState (op :: rest) = connectedState := by
      show runOps (runOp initialConnState op) rest = connectedState
      have h0 : runOp initialConnState op = connectedState := rfl
      rw [h0, runOps_connected]
    exact ⟨by rw [h]; exact Nat.le_refl 1, fun _ => h⟩

/-- Claim C8, witness: the theorem applied to the two-operation
sequence findAll-then-insertOne. -/
theorem claim_C8_witness :
    (runOps initialConnState [MongoOp.findAll, MongoOp.insertOne]).connects ≤ 1 ∧
    runOps initialConnState [MongoOp.findAll, MongoOp.insertOne] = connectedState := by
  have h := claim_C8 [MongoOp.findAll, MongoOp.insertOne]
  exact ⟨h.1, h.2 (by decide)⟩

/-! ## Claim C9 -/

/-- Claim C9: whatever `createdAt` / `updatedAt` values the caller
supplies in the input document, the document stored by insertOne
carries the adapter's own clock reads as its stamps — the spread
`{ ...document, createdAt, updatedAt }` overwrites caller input, so
the stored stamps never come from the caller. -/
theorem claim_C9 (ms : MongoState) (nC nU : String) (name email : String)
    (age : Int) (c u : Option String) :
    (MongoDBService.insertOne ms nC nU
        { name := name, email := email, age := age, createdAt := c, updatedAt := u }).2.docs
      = ms.docs ++ [{ _id := oidString ms.nextOid, name := name, email := email
                      age := age, createdAt := nC, updatedAt := nU }] := rfl

/-! ## Claim C10 -/

/-- Claim C10: the relational POST route's success envelope carries as
its `user` field the head of the list the adapter's insert returned
(`newUser[0]`); on an empty list the route still answers with
`success := true`, status 200, no error, and an absent `user` field. -/
theorem claim_C10 (rows : List SqlRow) :
    (sqlCreateResponse (.ok rows)).success = true ∧
    (sqlCreateResponse (.ok rows)).status = 200 ∧
    (sqlCreateResponse (.ok rows)).user = rows.head? ∧
    (sqlCreateResponse (.ok rows)).error = none ∧
    (sqlCreateResponse (.ok ([] : List SqlRow))).user = none := by
  simp [sqlCreateResponse]

end DbTutorial
